import Mathlib

/-!
Shallow embedding of `src/utils/storageUtils.ts` of the grade-calculator
repository: the grade data model, the weighted-average computation, the
local-storage load/save layer with its migration pass and optional cloud
mirroring, and the add/delete grade operations.

JavaScript numbers are modelled as rationals; `JSON.stringify`/`JSON.parse`
are modelled as the identity on well-formed data (the stored blob is kept
structurally, and serialization is injective on the record types involved,
so string comparison of serializations is structural equality).  The browser
environment (local-storage write success, window presence, cloud fetch and
push outcomes) is an explicit record threaded through the functions, and
dispatched DOM events are collected in an event log.
-/

/-- A recorded assessment (the `Grade` entity, spec section 3 and 6):
`weight` is optional at rest. -/
structure Grade where
  value : ℚ
  type : String
  weight : Option ℚ
  date : String
deriving DecidableEq

/-- A tracked course (the `Subject` entity): `grades` and `averageGrade` may
be absent in stored data, which the source code guards for. -/
structure Subject where
  id : String
  name : String
  grades : Option (List Grade)
  averageGrade : Option ℚ
deriving DecidableEq

/-- The value stored under the fixed localStorage key `"gradeCalculator"`:
either a serialized well-formed Subject array, or content on which
`JSON.parse` throws or that is not an array (the source maps both to `[]`). -/
inductive StoredBlob
  | subjects (l : List Subject)
  | malformed
deriving DecidableEq

/-- Content of `localStorage` under the fixed key (`none` = key absent). -/
abbrev LocalStorage := Option StoredBlob

/-- The environment a run executes in.  `localWriteOk` says whether
`localStorage.setItem` succeeds (it throws otherwise, e.g. quota exceeded);
`cloudPush` and `cloudFetch` are the outcomes of `syncSubjectsToCloud` and
`getSubjectsFromCloud` (`Except.error` means the awaited call throws, and a
fetched `some l` is an array while `none` is a falsy or non-array result).
Event dispatch is modelled as an append to the event log and never throws:
whenever the `localStorage` accesses guarding it succeed, a browser `window`
exists. -/
structure Env where
  enableCloudFeatures : Bool
  windowDefined : Bool
  localWriteOk : Bool
  cloudPush : Except Unit Bool
  cloudFetch : Except Unit (Option (List Subject))

/-- JS truthiness of the optional `userId` string: `undefined` and `""` are
falsy. -/
def truthyStr : Option String → Bool
  | none => false
  | some s => s != ""

/-- JS truthiness of the optional `syncEnabled` boolean. -/
def truthyBool : Option Bool → Bool
  | none => false
  | some b => b

/-- The guard `ENABLE_CLOUD_FEATURES && userId && syncEnabled` used by both
`saveSubjectsToStorage` and `getSubjectsFromStorage`. -/
def cloudGate (env : Env) (userId : Option String) (syncEnabled : Option Bool) : Bool :=
  env.enableCloudFeatures && truthyStr userId && truthyBool syncEnabled

/-- `Number.parseFloat(x.toFixed(2))`: rounding to two decimal places,
half-up decimal rounding per spec section 4.1. -/
def round2 (q : ℚ) : ℚ := (⌊q * 100 + 1 / 2⌋ : ℚ) / 100

/-- The step `const weight = grade.weight || 1.0` of `calculateAverage`.
JS `||` falls back on every falsy value, so both a missing weight and an
explicit weight `0` yield `1.0`. -/
def gradeWeight (grade : Grade) : ℚ :=
  match grade.weight with
  | none => 1
  | some w => if w = 0 then 1 else w

/-- `calculateAverage` (storageUtils.ts lines 245-262): weighted sum and
total weight accumulated by a single `reduce`, then divided and rounded. -/
def calculateAverage (grades : List Grade) : ℚ :=
  if grades.isEmpty then 0
  else
    let acc := grades.foldl
      (fun acc grade =>
        let weight := gradeWeight grade
        (acc.1 + grade.value * weight, acc.2 + weight))
      ((0 : ℚ), (0 : ℚ))
    round2 (acc.1 / acc.2)

/-- The five default subjects (`initializeSubjects` in the source; the Lean
name is shortened). -/
def initSubjects : List Subject :=
  [ { id := "math", name := "Mathematics", grades := some [], averageGrade := none },
    { id := "german", name := "German", grades := some [], averageGrade := none },
    { id := "english", name := "English", grades := some [], averageGrade := none },
    { id := "science", name := "Science", grades := some [], averageGrade := none },
    { id := "history", name := "History", grades := some [], averageGrade := none } ]

/-- `saveSubjectsToStorage` (lines 36-66).  Returns the boolean result, the
new localStorage content, and the dispatched events in order.
`JSON.stringify` of acyclic record data never throws, so the only fallible
step of the outer try block is `localStorage.setItem`; when it throws the
function logs and returns `false` with no state change. -/
def saveSubjectsToStorage (subjects : List Subject) (userId : Option String)
    (syncEnabled : Option Bool) (env : Env) (store : LocalStorage) :
    Bool × LocalStorage × List String :=
  if env.localWriteOk then
    let store' : LocalStorage := some (StoredBlob.subjects subjects)
    -- notifySubjectsUpdated dispatches only when a window exists
    let evs := if env.windowDefined then ["subjectsUpdated"] else []
    if cloudGate env userId syncEnabled then
      match env.cloudPush with
      | .ok true => (true, store', evs)
      | .ok false => (true, store', evs ++ ["syncPreferenceChanged"])
      | .error _ => (true, store', evs ++ ["syncPreferenceChanged"])
    else
      (true, store', evs)
  else
    (false, store, [])

/-- Migration of one grade (the inner map of the migration pass, lines
125-131): a grade whose `weight === undefined` gets the default weight for
its type (`2.0` for `"Test"`, else `1.0`). -/
def migrateGrade (grade : Grade) : Grade :=
  match grade.weight with
  | none => { grade with weight := some (if grade.type = "Test" then 2 else 1) }
  | some _ => grade

/-- Migration of one subject (lines 123-136): when `grades` is present and
non-empty, fill in missing weights and recompute `averageGrade`. -/
def migrateSubject (subject : Subject) : Subject :=
  match subject.grades with
  | some gs =>
    if gs.length > 0 then
      let gs' := gs.map migrateGrade
      { subject with grades := some gs', averageGrade := some (calculateAverage gs') }
    else subject
  | none => subject

/-- The local part of `getSubjectsFromStorage` (lines 94-144): everything
after the cloud attempt. -/
def getSubjectsLocal (userId : Option String) (syncEnabled : Option Bool)
    (env : Env) (store : LocalStorage) : List Subject × LocalStorage × List String :=
  if !env.windowDefined then (initSubjects, store, [])
  else
    match store with
    | none =>
      -- key absent: synthesize defaults, persist them (result ignored)
      let defaults := initSubjects
      let r := saveSubjectsToStorage defaults userId syncEnabled env store
      (defaults, r.2.1, r.2.2)
    | some blob =>
      let subjects : List Subject :=
        match blob with
        | .subjects l => l          -- parses and Array.isArray holds
        | .malformed => []          -- JSON.parse throws or non-array result
      if subjects.isEmpty then
        let defaults := initSubjects
        let r := saveSubjectsToStorage defaults userId syncEnabled env store
        (defaults, r.2.1, r.2.2)
      else
        let migratedSubjects := subjects.map migrateSubject
        -- In the source the migration mutates each subject record in place
        -- and `Array.prototype.map` returns the very same references, so by
        -- the time the guard
        -- `JSON.stringify(subjects) !== JSON.stringify(migratedSubjects)`
        -- runs, the variable `subjects` already denotes the migrated
        -- records: both serializations coincide and the guard cannot fire.
        let subjectsAtGuard := migratedSubjects
        if subjectsAtGuard ≠ migratedSubjects then
          let r := saveSubjectsToStorage migratedSubjects userId syncEnabled env store
          (migratedSubjects, r.2.1, r.2.2)
        else
          (migratedSubjects, store, [])

/-- `getSubjectsFromStorage` (lines 69-151): optional cloud-first read with
synchronous write-through, falling back to the local path on any cloud
failure, falsy or non-array result, or empty array. -/
def getSubjectsFromStorage (userId : Option String) (syncEnabled : Option Bool)
    (env : Env) (store : LocalStorage) : List Subject × LocalStorage × List String :=
  if cloudGate env userId syncEnabled then
    match env.cloudFetch with
    | .ok (some cloudSubjects) =>
      if cloudSubjects.length > 0 then
        -- write-through: localStorage.setItem inside the inner try block;
        -- when it throws, the catch falls through to the local path
        if env.localWriteOk then
          (cloudSubjects, some (StoredBlob.subjects cloudSubjects), [])
        else getSubjectsLocal userId syncEnabled env store
      else getSubjectsLocal userId syncEnabled env store
    | .ok none => getSubjectsLocal userId syncEnabled env store
    | .error _ => getSubjectsLocal userId syncEnabled env store
  else getSubjectsLocal userId syncEnabled env store

/-- `grades.filter((_, i) => i !== gradeIndex)` written as structural
recursion over the list, threading the running position. -/
def filterIdxNe (gradeIndex : Nat) : Nat → List Grade → List Grade
  | _, [] => []
  | i, g :: gs =>
    if i = gradeIndex then filterIdxNe gradeIndex (i + 1) gs
    else g :: filterIdxNe gradeIndex (i + 1) gs

/-- Removal used by `deleteGradeFromSubject`: the indexed filter started at
position 0. -/
def removeAtIndex (gradeIndex : Nat) (gs : List Grade) : List Grade :=
  filterIdxNe gradeIndex 0 gs

/-- Structural rendering of `addGradeToSubject`'s core (`findIndex` on `id`,
then replacement at the found index): `none` when no subject has the id,
otherwise the collection with the first matching subject updated. -/
def addGradeInList (subjectid : String) (grade : Grade) :
    List Subject → Option (List Subject)
  | [] => none
  | s :: rest =>
    if s.id = subjectid then
      -- ensure the grades array exists, append, recompute the average
      let grades := s.grades.getD [] ++ [grade]
      some ({ s with
                grades := some grades
                averageGrade := some (calculateAverage grades) } :: rest)
    else
      (addGradeInList subjectid grade rest).map (s :: ·)

/-- `addGradeToSubject` (lines 154-192). -/
def addGradeToSubject (subjectid : String) (grade : Grade) (userId : Option String)
    (syncEnabled : Option Bool) (env : Env) (store : LocalStorage) :
    Bool × LocalStorage × List String :=
  let l := getSubjectsFromStorage userId syncEnabled env store
  match addGradeInList subjectid grade l.1 with
  | none => (false, l.2.1, l.2.2)
  | some subjects' =>
    let r := saveSubjectsToStorage subjects' userId syncEnabled env l.2.1
    (r.1, r.2.1, l.2.2 ++ r.2.2)

/-- Outcome of the body of `deleteGradeFromSubject` after the load. -/
inductive DeleteOutcome
  | notFound
  | noop
  | updated (subjects : List Subject)
deriving DecidableEq

/-- Structural rendering of `deleteGradeFromSubject`'s core: `notFound` when
no subject has the id, `noop` (the source's early `return true`) when the
found subject's `grades` is missing or empty, otherwise the collection with
the indexed filter applied and the average recomputed. -/
def deleteGradeInList (subjectid : String) (gradeIndex : Nat) :
    List Subject → DeleteOutcome
  | [] => .notFound
  | s :: rest =>
    if s.id = subjectid then
      match s.grades with
      | none => .noop
      | some gs =>
        if gs.isEmpty then .noop
        else
          let gs' := removeAtIndex gradeIndex gs
          .updated ({ s with
                        grades := some gs'
                        averageGrade := some (calculateAverage gs') } :: rest)
    else
      match deleteGradeInList subjectid gradeIndex rest with
      | .notFound => .notFound
      | .noop => .noop
      | .updated rest' => .updated (s :: rest')

/-- `deleteGradeFromSubject` (lines 195-228). -/
def deleteGradeFromSubject (subjectid : String) (gradeIndex : Nat)
    (userId : Option String) (syncEnabled : Option Bool) (env : Env)
    (store : LocalStorage) : Bool × LocalStorage × List String :=
  let l := getSubjectsFromStorage userId syncEnabled env store
  match deleteGradeInList subjectid gradeIndex l.1 with
  | .notFound => (false, l.2.1, l.2.2)
  | .noop => (true, l.2.1, l.2.2)
  | .updated subjects' =>
    let r := saveSubjectsToStorage subjects' userId syncEnabled env l.2.1
    (r.1, r.2.1, l.2.2 ++ r.2.2)

/-- Weight rule of claim C1 read literally from the spec's words: the
default applies only to a grade lacking an explicit weight. -/
def claimWeight (g : Grade) : ℚ := g.weight.getD 1

/-- Average formula of claim C1 read literally from the spec's words. -/
def claimAverage (gs : List Grade) : ℚ :=
  if gs = [] then 0
  else round2 ((gs.map fun g => g.value * claimWeight g).sum / (gs.map claimWeight).sum)

/-- Amended weight rule: the default `1.0` applies to a grade lacking an
explicit weight and to a grade whose explicit weight is `0` (falsy). -/
def amendedWeight (g : Grade) : ℚ :=
  match g.weight with
  | none => 1
  | some w => if w = 0 then 1 else w

/-- Amended average formula: the weighted average with `amendedWeight`. -/
def amendedAverage (gs : List Grade) : ℚ :=
  if gs = [] then 0
  else round2 ((gs.map fun g => g.value * amendedWeight g).sum / (gs.map amendedWeight).sum)

/-- A browser environment with the cloud gate closed and a working local
store, used by concrete evaluations. -/
def envLocal : Env :=
  { enableCloudFeatures := false, windowDefined := true, localWriteOk := true,
    cloudPush := .ok true, cloudFetch := .ok none }

/-- A grade with an explicit weight of `0`. -/
def gZero : Grade := { value := 4, type := "Other", weight := some 0, date := "2024-01-01" }

/-- The spec's worked example: type `"Test"`, value `2.0`, weight `2.0`. -/
def gradeTest2 : Grade := { value := 2, type := "Test", weight := some 2, date := "2024-01-01" }

/-- The spec's worked example: type `"Other"`, value `4.0`, weight `1.0`. -/
def gradeOther4 : Grade := { value := 4, type := "Other", weight := some 1, date := "2024-01-02" }

/-- A legacy stored grade lacking `weight`. -/
def legacyGrade : Grade := { value := 2, type := "Test", weight := none, date := "2024-01-01" }

/-- A legacy stored subject whose single grade lacks `weight`. -/
def legacySubject : Subject :=
  { id := "math", name := "Mathematics", grades := some [legacyGrade], averageGrade := none }

/-- A fully migrated subject with a single weight-1 grade. -/
def gradeSingle : Grade := { value := 3, type := "Other", weight := some 1, date := "2024-01-01" }

/-- A subject holding `gradeSingle` with its average cached. -/
def subjectMath : Subject :=
  { id := "math", name := "Mathematics", grades := some [gradeSingle], averageGrade := some 3 }

/-! ### Helper lemmas about the weighted average -/

theorem gradeWeight_eq_amendedWeight (g : Grade) : gradeWeight g = amendedWeight g := rfl

theorem gradeWeight_fun_eq : gradeWeight = amendedWeight := funext fun _ => rfl

theorem foldl_weighted (gs : List Grade) (a b : ℚ) :
    gs.foldl (fun acc grade =>
      let weight := gradeWeight grade
      (acc.1 + grade.value * weight, acc.2 + weight)) (a, b)
    = (a + (gs.map fun g => g.value * gradeWeight g).sum,
       b + (gs.map gradeWeight).sum) := by
  induction gs generalizing a b with
  | nil => simp
  | cons g t ih => simp [List.foldl_cons, ih, add_assoc]

theorem calculateAverage_eq (gs : List Grade) : calculateAverage gs = amendedAverage gs := by
  rcases gs with _ | ⟨g, t⟩
  · simp [calculateAverage, amendedAverage]
  · simp only [calculateAverage, amendedAverage, foldl_weighted]
    simp [gradeWeight_fun_eq]

/-! ### Helper lemmas about migration -/

theorem migrateGrade_idem (g : Grade) : migrateGrade (migrateGrade g) = migrateGrade g := by
  cases h : g.weight <;> simp [migrateGrade, h]

theorem map_migrateGrade_idem (l : List Grade) :
    (l.map migrateGrade).map migrateGrade = l.map migrateGrade := by
  induction l with
  | nil => rfl
  | cons a t ih => simp [migrateGrade_idem, ih]

theorem migrateSubject_idem (s : Subject) :
    migrateSubject (migrateSubject s) = migrateSubject s := by
  rcases hg : s.grades with _ | gs
  · simp [migrateSubject, hg]
  · by_cases hl : gs.length > 0
    · have hmap := map_migrateGrade_idem gs
      have hmap' : List.map (migrateGrade ∘ migrateGrade) gs = List.map migrateGrade gs := by
        rw [← List.map_map]
        exact hmap
      have hlen : (gs.map migrateGrade).length > 0 := by simpa using hl
      simp [migrateSubject, hg, hl, hlen, hmap, hmap', migrateGrade_idem]
    · simp [migrateSubject, hg, hl]

theorem migrateSubject_id (s : Subject) : (migrateSubject s).id = s.id := by
  rcases hg : s.grades with _ | gs
  · simp [migrateSubject, hg]
  · by_cases hl : gs.length > 0 <;> simp [migrateSubject, hg, hl]

theorem migrateSubject_name (s : Subject) : (migrateSubject s).name = s.name := by
  rcases hg : s.grades with _ | gs
  · simp [migrateSubject, hg]
  · by_cases hl : gs.length > 0 <;> simp [migrateSubject, hg, hl]

theorem migrateSubject_grades (s : Subject) (gs : List Grade) (h : s.grades = some gs) :
    (migrateSubject s).grades = some (gs.map migrateGrade) := by
  by_cases hl : gs.length > 0
  · simp [migrateSubject, h, hl]
  · have hgs : gs = [] := List.eq_nil_of_length_eq_zero (by omega)
    subst hgs
    simp [migrateSubject, h]

theorem migrateSubject_avg (s : Subject) (gs : List Grade) (h : s.grades = some gs)
    (hne : gs ≠ []) :
    (migrateSubject s).averageGrade = some (calculateAverage (gs.map migrateGrade)) := by
  have hl : gs.length > 0 := List.length_pos.mpr hne
  simp [migrateSubject, h, hl]

theorem migrateSubject_of_empty (s : Subject)
    (h : s.grades = some [] ∨ s.grades = none) : migrateSubject s = s := by
  rcases h with h | h <;> simp [migrateSubject, h]

theorem migrateGrade_fields (g : Grade) :
    (migrateGrade g).value = g.value ∧ (migrateGrade g).type = g.type
      ∧ (migrateGrade g).date = g.date := by
  cases h : g.weight <;> simp [migrateGrade, h]

theorem migrateGrade_weight_of_some (g : Grade) (w : ℚ) (h : g.weight = some w) :
    (migrateGrade g).weight = some w := by
  simp [migrateGrade, h]

theorem migrateGrade_weight_of_none (g : Grade) (h : g.weight = none) :
    (migrateGrade g).weight = some (if g.type = "Test" then 2 else 1) := by
  simp [migrateGrade, h]

/-! ### Helper lemmas about the indexed filter -/

theorem filterIdxNe_of_lt (k : Nat) (gs : List Grade) :
    ∀ i, k < i → filterIdxNe k i gs = gs := by
  induction gs with
  | nil => intro i _; rfl
  | cons g t ih =>
    intro i hi
    have hne : ¬ (i = k) := by omega
    simp only [filterIdxNe, if_neg hne, ih (i + 1) (by omega)]

theorem filterIdxNe_add (gs : List Grade) :
    ∀ i d, filterIdxNe (i + d) i gs = gs.take d ++ gs.drop (d + 1) := by
  induction gs with
  | nil => intro i d; simp [filterIdxNe]
  | cons g t ih =>
    intro i d
    cases d with
    | zero =>
      simp only [filterIdxNe, Nat.add_zero, if_pos rfl]
      rw [filterIdxNe_of_lt i t (i + 1) (by omega)]
      simp
    | succ d =>
      have hne : ¬ (i = i + (d + 1)) := by omega
      have hne' : ¬ (i = (i + 1) + d) := by omega
      have harg : i + (d + 1) = (i + 1) + d := by omega
      simp only [filterIdxNe, harg, if_neg hne', ih (i + 1) d]
      simp [List.take_succ_cons, List.drop_succ_cons]

theorem removeAtIndex_eq (k : Nat) (gs : List Grade) :
    removeAtIndex k gs = gs.take k ++ gs.drop (k + 1) := by
  have h := filterIdxNe_add gs 0 k
  simpa [removeAtIndex] using h

theorem removeAtIndex_of_le (k : Nat) (gs : List Grade) (h : gs.length ≤ k) :
    removeAtIndex k gs = gs := by
  rw [removeAtIndex_eq, List.take_of_length_le h, List.drop_of_length_le (by omega)]
  simp

/-! ### Helper lemmas about the operation cores -/

theorem deleteGradeInList_not_found (subjectid : String) (gradeIndex : Nat)
    (l : List Subject) (h : ∀ t ∈ l, t.id ≠ subjectid) :
    deleteGradeInList subjectid gradeIndex l = .notFound := by
  induction l with
  | nil => rfl
  | cons s rest ih =>
    have hs : ¬ (s.id = subjectid) := h s (List.mem_cons_self s rest)
    have ih' := ih fun t ht => h t (List.mem_cons_of_mem s ht)
    simp [deleteGradeInList, hs, ih']

theorem deleteGradeInList_found_noop (subjectid : String) (gradeIndex : Nat)
    (pre : List Subject) (s : Subject) (post : List Subject)
    (hpre : ∀ t ∈ pre, t.id ≠ subjectid) (hs : s.id = subjectid)
    (hg : s.grades = none ∨ s.grades = some []) :
    deleteGradeInList subjectid gradeIndex (pre ++ s :: post) = .noop := by
  induction pre with
  | nil =>
    rcases hg with hg | hg <;> simp [deleteGradeInList, hs, hg]
  | cons p pre ih =>
    have hp : ¬ (p.id = subjectid) := hpre p (by simp)
    have ih' := ih fun t ht => hpre t (by simp [ht])
    simp [deleteGradeInList, hp, ih']

theorem deleteGradeInList_found_updated (subjectid : String) (gradeIndex : Nat)
    (pre : List Subject) (s : Subject) (post : List Subject) (gs : List Grade)
    (hpre : ∀ t ∈ pre, t.id ≠ subjectid) (hs : s.id = subjectid)
    (hg : s.grades = some gs) (hne : gs ≠ []) :
    deleteGradeInList subjectid gradeIndex (pre ++ s :: post)
      = .updated (pre ++ { s with
          grades := some (removeAtIndex gradeIndex gs)
          averageGrade := some (calculateAverage (removeAtIndex gradeIndex gs)) } :: post) := by
  induction pre with
  | nil =>
    have hie : gs.isEmpty = false := by simpa [List.isEmpty_iff] using hne
    simp [deleteGradeInList, hs, hg, hie]
  | cons p pre ih =>
    have hp : ¬ (p.id = subjectid) := hpre p (by simp)
    have ih' := ih fun t ht => hpre t (by simp [ht])
    simp [deleteGradeInList, hp, ih']

theorem addGradeInList_not_found (subjectid : String) (grade : Grade)
    (l : List Subject) (h : ∀ t ∈ l, t.id ≠ subjectid) :
    addGradeInList subjectid grade l = none := by
  induction l with
  | nil => rfl
  | cons s rest ih =>
    have hs : ¬ (s.id = subjectid) := h s (by simp)
    have ih' := ih fun t ht => h t (by simp [ht])
    simp [addGradeInList, hs, ih']

/-! ### Helper lemmas about save and load -/

theorem save_ok (subjects : List Subject) (userId : Option String)
    (syncEnabled : Option Bool) (env : Env) (store : LocalStorage)
    (hw : env.localWriteOk = true) :
    (saveSubjectsToStorage subjects userId syncEnabled env store).1 = true
    ∧ (saveSubjectsToStorage subjects userId syncEnabled env store).2.1
        = some (StoredBlob.subjects subjects) := by
  cases hg : cloudGate env userId syncEnabled
  · simp [saveSubjectsToStorage, hw, hg]
  · cases hp : env.cloudPush with
    | ok b => cases b <;> simp [saveSubjectsToStorage, hw, hg, hp]
    | error e => simp [saveSubjectsToStorage, hw, hg, hp]

theorem getSubjects_gate_false (userId : Option String) (syncEnabled : Option Bool)
    (env : Env) (store : LocalStorage)
    (h : cloudGate env userId syncEnabled = false) :
    getSubjectsFromStorage userId syncEnabled env store
      = getSubjectsLocal userId syncEnabled env store := by
  simp [getSubjectsFromStorage, h]

theorem getSubjectsLocal_of_subjects (userId : Option String)
    (syncEnabled : Option Bool) (env : Env) (l : List Subject)
    (hw : env.windowDefined = true) (hne : l ≠ []) :
    getSubjectsLocal userId syncEnabled env (some (StoredBlob.subjects l))
      = (l.map migrateSubject, some (StoredBlob.subjects l), []) := by
  have hie : l.isEmpty = false := by simpa [List.isEmpty_iff] using hne
  simp [getSubjectsLocal, hw, hie]

theorem getSubjects_local_of_subjects (userId : Option String)
    (syncEnabled : Option Bool) (env : Env) (l : List Subject)
    (hgate : cloudGate env userId syncEnabled = false)
    (hw : env.windowDefined = true) (hne : l ≠ []) :
    getSubjectsFromStorage userId syncEnabled env (some (StoredBlob.subjects l))
      = (l.map migrateSubject, some (StoredBlob.subjects l), []) := by
  rw [getSubjects_gate_false userId syncEnabled env _ hgate,
    getSubjectsLocal_of_subjects userId syncEnabled env l hw hne]

/-! ### Claim C1 -/

/-- Claim C1 (counterexample): the claim's average formula, in which the
default weight `1.0` applies only to grades lacking an explicit weight,
disagrees with `calculateAverage` on a grade carrying an explicit weight of
`0`: the code treats the falsy weight `0` as `1.0`, the claim's formula
keeps it as `0`. -/
theorem calculateAverage_zero_weight_ce :
    calculateAverage [gZero] ≠ claimAverage [gZero] := by
  have h1 : calculateAverage [gZero] = 4 := by
    simp [calculateAverage, gZero, gradeWeight, round2]
    norm_num
  have h2 : claimAverage [gZero] = 0 := by
    simp [claimAverage, claimWeight, gZero, round2]
    norm_num
  rw [h1, h2]
  norm_num

/-- Claim C1 (amended): `calculateAverage` returns `0` on the empty sequence
and otherwise the weighted average `round2(sum(value * w) / sum(w))`, where
`w` defaults to `1.0` both for a grade lacking an explicit weight and for a
grade whose explicit weight is `0` (JS falsy); on the spec's worked example
it returns `2.67`. -/
theorem calculateAverage_weighted_avg_amended :
    (∀ gs, calculateAverage gs = amendedAverage gs)
    ∧ calculateAverage [] = 0
    ∧ calculateAverage [gradeTest2, gradeOther4] = 267 / 100 := by
  refine ⟨calculateAverage_eq, by simp [calculateAverage], ?_⟩
  simp [calculateAverage, gradeTest2, gradeOther4, gradeWeight, round2]
  norm_num

/-! ### Claim C9 -/

/-- Claim C9: the migration pass is idempotent — applying it twice to any
stored subject collection yields the same output as applying it once. -/
theorem migration_idempotent :
    ∀ l : List Subject,
      (l.map migrateSubject).map migrateSubject = l.map migrateSubject := by
  intro l
  induction l with
  | nil => rfl
  | cons s t ih => simp [List.map_cons, migrateSubject_idem, ih]

/-! ### Claim C10 -/

/-- Claim C10: `calculateAverage` treats an explicit weight of `0` as the
default `1.0` — such a grade contributes `value * 1.0` to the weighted sum
and `1.0` to the total weight, exactly as if its weight were `1.0`. -/
theorem zero_weight_contributes_default (gs₁ gs₂ : List Grade) (g : Grade)
    (h : g.weight = some 0) :
    gradeWeight g = 1
    ∧ calculateAverage (gs₁ ++ g :: gs₂)
        = calculateAverage (gs₁ ++ { g with weight := some 1 } :: gs₂) := by
  have hw : gradeWeight g = 1 := by simp [gradeWeight, h]
  refine ⟨hw, ?_⟩
  rw [calculateAverage_eq, calculateAverage_eq]
  have hne1 : gs₁ ++ g :: gs₂ ≠ [] := by simp
  have hne2 : gs₁ ++ { g with weight := some 1 } :: gs₂ ≠ [] := by simp
  have h1 : amendedWeight g = 1 := by simp [amendedWeight, h]
  have h2 : amendedWeight { g with weight := some 1 } = 1 := by simp [amendedWeight]
  simp only [amendedAverage, if_neg hne1, if_neg hne2, List.map_append, List.map_cons,
    List.sum_append, List.sum_cons, h1, h2]

/-- Witness for claim C10 at the concrete grade `gZero`. -/
theorem zero_weight_contributes_default_witness :
    gradeWeight gZero = 1
    ∧ calculateAverage ([] ++ gZero :: [])
        = calculateAverage ([] ++ { gZero with weight := some 1 } :: []) :=
  zero_weight_contributes_default [] [] gZero rfl

/-! ### Claim C4 -/

/-- Claim C4: `saveSubjectsToStorage` returns `false` exactly when the local
write throws (serialization of acyclic data never throws); the cloud push
outcome never changes the returned value; and with the cloud gate open a
failed push (explicit `false` or a thrown error) emits the degraded-sync
notification.  The function is total, so no exception reaches the caller. -/
theorem saveSubjects_result_spec (subjects : List Subject) (userId : Option String)
    (syncEnabled : Option Bool) (env : Env) (store : LocalStorage) :
    (saveSubjectsToStorage subjects userId syncEnabled env store).1 = env.localWriteOk
    ∧ (∀ push : Except Unit Bool,
        (saveSubjectsToStorage subjects userId syncEnabled
            { env with cloudPush := push } store).1
          = (saveSubjectsToStorage subjects userId syncEnabled env store).1)
    ∧ (env.localWriteOk = true → cloudGate env userId syncEnabled = true →
        (env.cloudPush = .ok false ∨ env.cloudPush = .error ()) →
        "syncPreferenceChanged"
          ∈ (saveSubjectsToStorage subjects userId syncEnabled env store).2.2) := by
  have hres : ∀ e : Env,
      (saveSubjectsToStorage subjects userId syncEnabled e store).1 = e.localWriteOk := by
    intro e
    cases hw : e.localWriteOk
    · simp [saveSubjectsToStorage, hw]
    · cases hg : cloudGate e userId syncEnabled
      · simp [saveSubjectsToStorage, hw, hg]
      · cases hp : e.cloudPush with
        | ok b => cases b <;> simp [saveSubjectsToStorage, hw, hg, hp]
        | error e' => simp [saveSubjectsToStorage, hw, hg, hp]
  refine ⟨hres env, fun push => ?_, fun hw hg hp => ?_⟩
  · rw [hres, hres]
  · rcases hp with hp | hp <;> simp [saveSubjectsToStorage, hw, hg, hp]

/-- An environment whose cloud push reports failure. -/
def envPushFail : Env :=
  { enableCloudFeatures := true, windowDefined := true, localWriteOk := true,
    cloudPush := .ok false, cloudFetch := .ok none }

/-- Witness for claim C4: with an open gate and a failing push, the
degraded-sync notification is emitted. -/
theorem saveSubjects_result_spec_witness :
    "syncPreferenceChanged"
      ∈ (saveSubjectsToStorage [] (some "u") (some true) envPushFail none).2.2 :=
  (saveSubjects_result_spec [] (some "u") (some true) envPushFail none).2.2
    rfl (by decide) (Or.inl rfl)

/-! ### Claim C3 -/

/-- Claim C3: with the cloud gate open, a successful non-empty well-formed
fetch is written through to the local store and returned; a thrown fetch, a
falsy or non-array result, or an empty array all fall through to the local
path, whose result is returned unchanged; and with cloud features disabled
the load is exactly the local path.  The function is total, so no exception
reaches the caller. -/
theorem getSubjects_cloud_behavior (userId : Option String) (syncEnabled : Option Bool)
    (env : Env) (store : LocalStorage)
    (h : cloudGate env userId syncEnabled = true) :
    (∀ l, env.cloudFetch = .ok (some l) → l ≠ [] → env.localWriteOk = true →
        getSubjectsFromStorage userId syncEnabled env store
          = (l, some (StoredBlob.subjects l), []))
    ∧ (env.cloudFetch = .error () →
        getSubjectsFromStorage userId syncEnabled env store
          = getSubjectsLocal userId syncEnabled env store)
    ∧ (env.cloudFetch = .ok none →
        getSubjectsFromStorage userId syncEnabled env store
          = getSubjectsLocal userId syncEnabled env store)
    ∧ (env.cloudFetch = .ok (some []) →
        getSubjectsFromStorage userId syncEnabled env store
          = getSubjectsLocal userId syncEnabled env store)
    ∧ getSubjectsFromStorage userId syncEnabled
          { env with enableCloudFeatures := false } store
        = getSubjectsLocal userId syncEnabled
          { env with enableCloudFeatures := false } store := by
  refine ⟨fun l hf hl hw => ?_, fun hf => ?_, fun hf => ?_, fun hf => ?_, ?_⟩
  · have hlen : 0 < l.length := List.length_pos.mpr hl
    simp [getSubjectsFromStorage, h, hf, hlen, hw]
  · simp [getSubjectsFromStorage, h, hf]
  · simp [getSubjectsFromStorage, h, hf]
  · simp [getSubjectsFromStorage, h, hf]
  · simp [getSubjectsFromStorage, cloudGate]

/-- An environment whose cloud fetch returns one subject. -/
def envFetch : Env :=
  { enableCloudFeatures := true, windowDefined := true, localWriteOk := true,
    cloudPush := .ok true, cloudFetch := .ok (some [subjectMath]) }

/-- Witness for claim C3: a concrete successful cloud fetch is written
through and returned. -/
theorem getSubjects_cloud_behavior_witness :
    getSubjectsFromStorage (some "u") (some true) envFetch none
      = ([subjectMath], some (StoredBlob.subjects [subjectMath]), []) :=
  (getSubjects_cloud_behavior (some "u") (some true) envFetch none (by decide)).1
    [subjectMath] rfl (by simp) rfl

/-! ### Claim C2 -/

/-- Claim C2 (code bug): on a stored collection whose migration changes the
serialized representation (a grade lacked `weight`), the load returns the
migrated in-memory collection, but the store still holds the original
unmigrated blob and no save happened (no event fired): the re-save guard
compares the in-place-mutated array against the mapped array, which alias
the same records, so it can never fire. -/
theorem getSubjects_migration_not_persisted :
    (getSubjectsFromStorage none none envLocal
        (some (StoredBlob.subjects [legacySubject]))).1
      = [legacySubject].map migrateSubject
    ∧ [legacySubject].map migrateSubject ≠ [legacySubject]
    ∧ (getSubjectsFromStorage none none envLocal
        (some (StoredBlob.subjects [legacySubject]))).2
      = (some (StoredBlob.subjects [legacySubject]), ([] : List String)) := by
  have hload := getSubjects_local_of_subjects none none envLocal [legacySubject]
    rfl rfl (by simp)
  refine ⟨by rw [hload], ?_, by rw [hload]⟩
  have havg := migrateSubject_avg legacySubject [legacyGrade] rfl (by simp)
  intro hcontra
  have h1 : migrateSubject legacySubject = legacySubject := by
    simpa using hcontra
  have h2 := congrArg Subject.averageGrade h1
  rw [havg] at h2
  simp [legacySubject] at h2

/-! ### Claim C5 -/

/-- Claim C5 (counterexample): deleting at the out-of-range index `5` from a
subject holding one grade returns `true`, not the boolean failure the claim
requires. -/
theorem deleteGrade_out_of_range_ce :
    (deleteGradeFromSubject "math" 5 none none envLocal
        (some (StoredBlob.subjects [subjectMath]))).1 = true := by
  have hload := getSubjects_local_of_subjects none none envLocal [subjectMath]
    rfl rfl (by simp)
  have hid : (migrateSubject subjectMath).id = "math" := by rw [migrateSubject_id]; rfl
  have hgr : (migrateSubject subjectMath).grades = some [gradeSingle] := by
    have h := migrateSubject_grades subjectMath [gradeSingle] rfl
    simpa [migrateGrade, gradeSingle] using h
  have hupd := deleteGradeInList_found_updated "math" 5 [] (migrateSubject subjectMath)
    [] [gradeSingle] (by simp) hid hgr (by simp)
  simp only [List.nil_append] at hupd
  simp only [deleteGradeFromSubject, hload, List.map_cons, List.map_nil, hupd]
  exact (save_ok _ none none envLocal _ rfl).1

/-- Claim C5 (amended): deleting at an out-of-range grade index from an
existing subject with a non-empty grades list does not surface a failure:
it returns the save result (`true` when the local write succeeds), leaves
the grades list unchanged, recomputes `averageGrade`, and persists the
collection. -/
theorem deleteGrade_out_of_range_amended (subjectid : String) (idx : Nat)
    (userId : Option String) (syncEnabled : Option Bool) (env : Env)
    (store : LocalStorage) (pre : List Subject) (s : Subject) (post : List Subject)
    (gs : List Grade)
    (hload : (getSubjectsFromStorage userId syncEnabled env store).1 = pre ++ s :: post)
    (hpre : ∀ t ∈ pre, t.id ≠ subjectid) (hs : s.id = subjectid)
    (hgs : s.grades = some gs) (hne : gs ≠ []) (hidx : gs.length ≤ idx)
    (hw : env.localWriteOk = true) :
    (deleteGradeFromSubject subjectid idx userId syncEnabled env store).1 = true
    ∧ (deleteGradeFromSubject subjectid idx userId syncEnabled env store).2.1
        = some (StoredBlob.subjects (pre ++ { s with
            grades := some gs
            averageGrade := some (calculateAverage gs) } :: post)) := by
  have hupd := deleteGradeInList_found_updated subjectid idx pre s post gs hpre hs hgs hne
  rw [removeAtIndex_of_le idx gs hidx] at hupd
  have hsave := save_ok (pre ++ { s with
      grades := some gs
      averageGrade := some (calculateAverage gs) } :: post) userId syncEnabled env
    (getSubjectsFromStorage userId syncEnabled env store).2.1 hw
  constructor
  · simp only [deleteGradeFromSubject, hload, hupd]
    exact hsave.1
  · simp only [deleteGradeFromSubject, hload, hupd]
    exact hsave.2

/-- Witness for the amended claim C5: the out-of-range deletion above leaves
the grades untouched, recomputes the average, and persists. -/
theorem deleteGrade_out_of_range_amended_witness :
    (deleteGradeFromSubject "math" 5 none none envLocal
        (some (StoredBlob.subjects [subjectMath]))).1 = true
    ∧ (deleteGradeFromSubject "math" 5 none none envLocal
        (some (StoredBlob.subjects [subjectMath]))).2.1
      = some (StoredBlob.subjects ([] ++ { migrateSubject subjectMath with
          grades := some [gradeSingle]
          averageGrade := some (calculateAverage [gradeSingle]) } :: [])) := by
  have hload : (getSubjectsFromStorage none none envLocal
      (some (StoredBlob.subjects [subjectMath]))).1
      = [] ++ migrateSubject subjectMath :: [] := by
    rw [getSubjects_local_of_subjects none none envLocal [subjectMath] rfl rfl (by simp)]
    simp
  have hid : (migrateSubject subjectMath).id = "math" := by rw [migrateSubject_id]; rfl
  have hgr : (migrateSubject subjectMath).grades = some [gradeSingle] := by
    have h := migrateSubject_grades subjectMath [gradeSingle] rfl
    simpa [migrateGrade, gradeSingle] using h
  exact deleteGrade_out_of_range_amended "math" 5 none none envLocal
    (some (StoredBlob.subjects [subjectMath])) [] (migrateSubject subjectMath) []
    [gradeSingle] hload (by simp) hid hgr (by simp) (by simp) rfl

/-! ### Claim C6 -/

/-- Claim C6: `deleteGradeFromSubject` returns `false` when no loaded
subject has the id; returns `true` without mutating anything when the found
subject's grades list is missing or empty; and otherwise, for an in-range
index, removes exactly the element at that position, recomputes
`averageGrade` with the weighted-average function, and persists the whole
collection. -/
theorem deleteGrade_cases (subjectid : String) (idx : Nat)
    (userId : Option String) (syncEnabled : Option Bool) (env : Env)
    (store : LocalStorage) :
    ((∀ t ∈ (getSubjectsFromStorage userId syncEnabled env store).1,
        t.id ≠ subjectid) →
      deleteGradeFromSubject subjectid idx userId syncEnabled env store
        = (false, (getSubjectsFromStorage userId syncEnabled env store).2))
    ∧ (∀ pre s post,
        (getSubjectsFromStorage userId syncEnabled env store).1 = pre ++ s :: post →
        (∀ t ∈ pre, t.id ≠ subjectid) → s.id = subjectid →
        (s.grades = none ∨ s.grades = some []) →
        deleteGradeFromSubject subjectid idx userId syncEnabled env store
          = (true, (getSubjectsFromStorage userId syncEnabled env store).2))
    ∧ (∀ pre s post gs,
        (getSubjectsFromStorage userId syncEnabled env store).1 = pre ++ s :: post →
        (∀ t ∈ pre, t.id ≠ subjectid) → s.id = subjectid →
        s.grades = some gs → gs ≠ [] → idx < gs.length → env.localWriteOk = true →
        (deleteGradeFromSubject subjectid idx userId syncEnabled env store).1 = true
        ∧ (deleteGradeFromSubject subjectid idx userId syncEnabled env store).2.1
            = some (StoredBlob.subjects (pre ++ { s with
                grades := some (gs.take idx ++ gs.drop (idx + 1))
                averageGrade := some (calculateAverage
                  (gs.take idx ++ gs.drop (idx + 1))) } :: post))) := by
  refine ⟨fun habs => ?_, fun pre s post hload hpre hs hg => ?_,
    fun pre s post gs hload hpre hs hgs hne hidx hw => ?_⟩
  · have hnf := deleteGradeInList_not_found subjectid idx _ habs
    simp only [deleteGradeFromSubject, hnf]
  · have hnoop := deleteGradeInList_found_noop subjectid idx pre s post hpre hs hg
    simp only [deleteGradeFromSubject, hload, hnoop]
  · have hupd := deleteGradeInList_found_updated subjectid idx pre s post gs hpre hs hgs hne
    rw [removeAtIndex_eq] at hupd
    have hsave := save_ok (pre ++ { s with
        grades := some (gs.take idx ++ gs.drop (idx + 1))
        averageGrade := some (calculateAverage (gs.take idx ++ gs.drop (idx + 1)))
      } :: post) userId syncEnabled env
      (getSubjectsFromStorage userId syncEnabled env store).2.1 hw
    constructor
    · simp only [deleteGradeFromSubject, hload, hupd]
      exact hsave.1
    · simp only [deleteGradeFromSubject, hload, hupd]
      exact hsave.2

/-- Witness for claim C6: a concrete in-range deletion succeeds. -/
theorem deleteGrade_cases_witness :
    (deleteGradeFromSubject "math" 0 none none envLocal
        (some (StoredBlob.subjects [subjectMath]))).1 = true := by
  have hload : (getSubjectsFromStorage none none envLocal
      (some (StoredBlob.subjects [subjectMath]))).1
      = [] ++ migrateSubject subjectMath :: [] := by
    rw [getSubjects_local_of_subjects none none envLocal [subjectMath] rfl rfl (by simp)]
    simp
  have hid : (migrateSubject subjectMath).id = "math" := by rw [migrateSubject_id]; rfl
  have hgr : (migrateSubject subjectMath).grades = some [gradeSingle] := by
    have h := migrateSubject_grades subjectMath [gradeSingle] rfl
    simpa [migrateGrade, gradeSingle] using h
  exact ((deleteGrade_cases "math" 0 none none envLocal
      (some (StoredBlob.subjects [subjectMath]))).2.2
    [] (migrateSubject subjectMath) [] [gradeSingle] hload (by simp) hid hgr
    (by simp) (by simp) rfl).1

/-! ### Claim C7 -/

/-- Claim C7: adding a grade for a subject id absent from a well-formed,
non-empty stored collection (local path) returns `false`, leaves the stored
collection unchanged, and fires no event: nothing is persisted by the
operation. -/
theorem addGrade_unknown_id (subjectid : String) (grade : Grade)
    (userId : Option String) (syncEnabled : Option Bool) (env : Env)
    (l : List Subject)
    (hcloud : cloudGate env userId syncEnabled = false)
    (hw : env.windowDefined = true) (hne : l ≠ [])
    (habs : ∀ s ∈ l, s.id ≠ subjectid) :
    addGradeToSubject subjectid grade userId syncEnabled env
        (some (StoredBlob.subjects l))
      = (false, some (StoredBlob.subjects l), []) := by
  have hload := getSubjects_local_of_subjects userId syncEnabled env l hcloud hw hne
  have habs' : ∀ t ∈ l.map migrateSubject, t.id ≠ subjectid := by
    intro t ht
    rcases List.mem_map.mp ht with ⟨u, hu, rfl⟩
    rw [migrateSubject_id]
    exact habs u hu
  have hnone := addGradeInList_not_found subjectid grade (l.map migrateSubject) habs'
  simp only [addGradeToSubject, hload, hnone]

/-- Witness for claim C7 at a concrete unknown id. -/
theorem addGrade_unknown_id_witness :
    addGradeToSubject "nope" gradeSingle none none envLocal
        (some (StoredBlob.subjects [subjectMath]))
      = (false, some (StoredBlob.subjects [subjectMath]), []) :=
  addGrade_unknown_id "nope" gradeSingle none none envLocal [subjectMath]
    rfl rfl (by simp) (by decide)

/-! ### Claim C8 -/

/-- Claim C8 (counterexample): the round trip is not the identity modulo
added fields on every well-formed array — saving the empty array and
loading back (cloud disabled) returns the five default subjects, not the
empty array. -/
theorem roundtrip_empty_ce :
    (getSubjectsFromStorage none none envLocal
        (saveSubjectsToStorage ([] : List Subject) none none envLocal none).2.1).1
      ≠ ([] : List Subject) := by
  have hsave := save_ok ([] : List Subject) none none envLocal none rfl
  rw [hsave.2]
  simp [getSubjectsFromStorage, cloudGate, envLocal, getSubjectsLocal,
    saveSubjectsToStorage, initSubjects]

/-- Claim C8 (amended): for every non-empty well-formed subject array, save
followed by load (cloud disabled) returns exactly the migrated collection:
each subject keeps its id and name, each grade keeps its value, type, date
and any explicit weight, grades lacking a weight gain the type-derived
default, `averageGrade` is recomputed for subjects with non-empty grades
(overwriting any stale cached value), and subjects with empty or missing
grades are returned verbatim. -/
theorem roundtrip_amended (subjects : List Subject) (userId : Option String)
    (syncEnabled : Option Bool) (env : Env) (store : LocalStorage)
    (hcloud : cloudGate env userId syncEnabled = false)
    (hw : env.windowDefined = true) (hwr : env.localWriteOk = true)
    (hne : subjects ≠ []) :
    (getSubjectsFromStorage userId syncEnabled env
        (saveSubjectsToStorage subjects userId syncEnabled env store).2.1).1
      = subjects.map migrateSubject
    ∧ (∀ s : Subject, (migrateSubject s).id = s.id ∧ (migrateSubject s).name = s.name)
    ∧ (∀ s : Subject, ∀ gs, s.grades = some gs →
        (migrateSubject s).grades = some (gs.map migrateGrade))
    ∧ (∀ s : Subject, ∀ gs, s.grades = some gs → gs ≠ [] →
        (migrateSubject s).averageGrade = some (calculateAverage (gs.map migrateGrade)))
    ∧ (∀ s : Subject, s.grades = some [] ∨ s.grades = none → migrateSubject s = s)
    ∧ (∀ g : Grade, (migrateGrade g).value = g.value ∧ (migrateGrade g).type = g.type
        ∧ (migrateGrade g).date = g.date)
    ∧ (∀ g : Grade, ∀ w, g.weight = some w → (migrateGrade g).weight = some w)
    ∧ (∀ g : Grade, g.weight = none →
        (migrateGrade g).weight = some (if g.type = "Test" then 2 else 1)) := by
  have hsave := save_ok subjects userId syncEnabled env store hwr
  refine ⟨?_, fun s => ⟨migrateSubject_id s, migrateSubject_name s⟩,
    fun s gs hg => migrateSubject_grades s gs hg,
    fun s gs hg hne' => migrateSubject_avg s gs hg hne',
    fun s hg => migrateSubject_of_empty s hg,
    fun g => migrateGrade_fields g,
    fun g w hw' => migrateGrade_weight_of_some g w hw',
    fun g hw' => migrateGrade_weight_of_none g hw'⟩
  rw [hsave.2, getSubjects_local_of_subjects userId syncEnabled env subjects hcloud hw hne]

/-- Witness for the amended claim C8 on a concrete legacy collection. -/
theorem roundtrip_amended_witness :
    (getSubjectsFromStorage none none envLocal
        (saveSubjectsToStorage [legacySubject] none none envLocal none).2.1).1
      = [legacySubject].map migrateSubject :=
  (roundtrip_amended [legacySubject] none none envLocal none rfl rfl rfl (by simp)).1
